import Mathlib

/-!
Shallow embedding of the URLtoFILE repository (FastAPI YouTube audio
downloader): `src/app/app.py` and `src/app/utils/download_yt.py`.

Pure string manipulation is translated directly.  Effectful code
(WebSocket sends, the yt-dlp extractor, the filesystem) is embedded by
explicit state passing: an `Env` record supplies the outcome of every
external interaction (whether each `send_json` call succeeds, what the
extractor returns, which artifact it writes and its size, the thumbnail
metadata), a `St` record threads the filesystem model and the list of
messages actually delivered to the client, and Python exceptions are
`Except` values.  Timestamps (`created_at` / `updated_at`), logging and
the textual detail of float formatting inside messages are not modelled;
no claim depends on them.
-/

namespace UrlToFile

/-- Constant `DOWNLOAD_FOLDER` from app.py. -/
def DOWNLOAD_FOLDER : String := "download"

/-- Constant `MAX_FILE_SIZE_MB` from app.py. -/
def MAX_FILE_SIZE_MB : Int := 50

/-- Constant `SUPPORTED_PLATFORMS` from app.py. -/
def SUPPORTED_PLATFORMS : List String := ["youtube", "youtu.be"]

/-- Constant `COMING_SOON_PLATFORMS` from app.py. -/
def COMING_SOON_PLATFORMS : List String := ["vk.com", "soundcloud.com", "spotify.com"]

/-- Substring test on character lists: Python's `needle in hay`. -/
def listIsSubstr (needle : List Char) : List Char → Bool
  | [] => needle.isEmpty
  | c :: t => needle.isPrefixOf (c :: t) || listIsSubstr needle t

/-- Python's `needle in hay` on strings. -/
def strContains (hay needle : String) : Bool :=
  listIsSubstr needle.toList hay.toList

/-- Python `str.lower()` (ASCII case folding, which covers every platform
marker compared against). -/
def strLower (s : String) : String :=
  String.mk (s.toList.map Char.toLower)

/-- Python `str.upper()` (ASCII case folding). -/
def strUpper (s : String) : String :=
  String.mk (s.toList.map Char.toUpper)

/-- Python `str.strip()`. -/
def strStrip (s : String) : String :=
  String.mk (((s.toList.dropWhile Char.isWhitespace).reverse.dropWhile
    Char.isWhitespace).reverse)

/-- Function `is_supported_platform` from app.py:
`any(platform in url.lower() for platform in SUPPORTED_PLATFORMS)`. -/
def is_supported_platform (url : String) : Bool :=
  SUPPORTED_PLATFORMS.any (fun platform => strContains (strLower url) platform)

/-- Function `get_platform_from_url` from app.py: returns "YouTube" for a
supported platform, the upper-cased marker for a coming-soon platform,
else the generic unknown-platform label. -/
def get_platform_from_url (url : String) : String :=
  if SUPPORTED_PLATFORMS.any (fun platform => strContains (strLower url) platform) then
    "YouTube"
  else
    match COMING_SOON_PLATFORMS.find? (fun platform => strContains (strLower url) platform) with
    | some platform => strUpper platform
    | none => "Неизвестная платформа"

/-- The character class of the regex in `safe_filename`
(download_yt.py): the characters replaced by an underscore. -/
def forbiddenChars : List Char := ['<', '>', ':', '"', '/', '\\', '|', '?', '*']

/-- One step of the regex substitution: a character of the class becomes
an underscore, every other character is kept. -/
def reSubChar (c : Char) : Char :=
  if forbiddenChars.contains c then '_' else c

/-- The body of `re.sub` over a character class: processed left to right,
one character at a time. -/
def reSubChars : List Char → List Char
  | [] => []
  | c :: cs => reSubChar c :: reSubChars cs

/-- Function `safe_filename` from download_yt.py:
`re.sub(r'[<>:"/\\|?*]', '_', filename)`. -/
def safe_filename (filename : String) : String :=
  String.mk (reSubChars filename.toList)

/-- The `os.path.basename` of a path built with forward-slash joins:
everything after the last slash. -/
def basename (s : String) : String :=
  String.mk (s.toList.foldl (fun acc c => if c = '/' then [] else acc ++ [c]) [])

/-! ## Filesystem model

The storage directory as an association list from path to file size in
bytes.  `os.path.getsize(p) / (1024*1024) > limit` is embedded as the
exact integer comparison `size > limit * 1048576`. -/

/-- A filesystem: list of (path, size-in-bytes) pairs, first match wins. -/
abbrev FS := List (String × Nat)

/-- Python `os.path.exists`. -/
def FS.pathExists (fs : FS) (p : String) : Bool :=
  (fs.find? (fun e => e.1 == p)).isSome

/-- Python `os.path.getsize` (0 when absent; only called after an
existence check in the embedded code). -/
def FS.fileSize (fs : FS) (p : String) : Nat :=
  ((fs.find? (fun e => e.1 == p)).map (fun e => e.2)).getD 0

/-- Writing a file: replaces any file previously at that path. -/
def FS.setFile (fs : FS) (p : String) (sz : Nat) : FS :=
  (p, sz) :: fs.filter (fun e => e.1 != p)

/-- Python `os.remove`. -/
def FS.removeFile (fs : FS) (p : String) : FS :=
  fs.filter (fun e => e.1 != p)

/-! ## Job store (`DownloadManager` in app.py) -/

/-- One entry of `DownloadManager.downloads`: the dict created by
`create_download_task` (timestamps omitted). -/
structure Job where
  url : String
  maxsize : Int
  status : String
  progress : Int
  mp3_path : Option String
  thumb_path : Option String
  error : Option String
deriving Repr, DecidableEq

/-- The `downloads` dict: task id to job, first match wins. -/
abbrev Store := List (String × Job)

/-- The job dict inserted by `create_download_task`. -/
def initJob (url : String) (maxsize : Int) : Job :=
  { url := url, maxsize := maxsize, status := "created", progress := 0,
    mp3_path := none, thumb_path := none, error := none }

/-- Method `DownloadManager.create_download_task` from app.py; the fresh
uuid is supplied by the caller. -/
def create_download_task (downloads : Store) (task_id url : String) (maxsize : Int) : Store :=
  (task_id, initJob url maxsize) :: downloads

/-- Method `DownloadManager.update_download` from app.py: merges the
given fields when the id is known, otherwise a no-op. -/
def update_download (downloads : Store) (task_id : String) (f : Job → Job) : Store :=
  if (downloads.find? (fun e => e.1 == task_id)).isSome then
    downloads.map (fun e => if e.1 == task_id then (e.1, f e.2) else e)
  else downloads

/-- Method `DownloadManager.get_download` from app.py. -/
def get_download (downloads : Store) (task_id : String) : Option Job :=
  (downloads.find? (fun e => e.1 == task_id)).map (fun e => e.2)

/-! ## Messages and effect state -/

/-- A JSON message sent over the WebSocket, by shape. -/
inductive Msg where
  /-- A bare validation / handler error: `{"error": ...}`. -/
  | errorMsg (text : String)
  /-- The coming-soon response: `{"error", "coming_soon": true, "platform"}`. -/
  | comingSoon (text : String) (platform : String)
  /-- The first message after job creation: `{"status", "progress", "task_id"}`. -/
  | startMsg (status : String) (progress : Int) (task_id : String)
  /-- A progress update from download_audio: `{"progress", "status"}`. -/
  | progressMsg (progress : Int) (status : String)
  /-- The terminal success payload (file size kept in raw bytes). -/
  | successMsg (message : String) (download_url : String) (task_id : Option String)
      (file_size_bytes : Nat) (thumbnail_url : Option String)
  /-- The terminal failure payload: `{"error", "task_id"}`. -/
  | failureMsg (error : String) (task_id : String)
deriving Repr, DecidableEq

/-- Whether a message is one of the two terminal payloads of a job. -/
def isTerminal : Msg → Bool
  | Msg.successMsg _ _ _ _ _ => true
  | Msg.failureMsg _ _ => true
  | _ => false

/-- The progress value a message carries, when it carries one. -/
def progressOf : Msg → Option Int
  | Msg.startMsg _ p _ => some p
  | Msg.progressMsg p _ => some p
  | _ => none

/-- The progress values of a trace, in delivery order. -/
def progressValues (msgs : List Msg) : List Int :=
  msgs.filterMap progressOf

/-- Whether a sequence of progress values never decreases. -/
def nonDecreasing : List Int → Bool
  | [] => true
  | [_] => true
  | a :: b :: t => decide (a ≤ b) && nonDecreasing (b :: t)

/-- Mutable world threaded through a request: the storage directory, the
messages delivered so far, and how many sends were attempted (index into
the send oracle). -/
structure St where
  fs : FS
  sent : List Msg
  sendCount : Nat
deriving Repr, DecidableEq

/-- The empty initial world. -/
def St0 : St := { fs := [], sent := [], sendCount := 0 }

/-- Outcomes of every external interaction of one request: which sends
succeed, what the two `extract_info` calls do, the progress-hook events,
the artifact the extractor writes, and the thumbnail metadata. -/
structure Env where
  /-- Whether the k-th `ws.send_json` raises (`false`) or succeeds. -/
  sendOk : Nat → Bool
  /-- `extract_info(url, download=False)`: raises, or yields the raw title. -/
  infoResult : Except String String
  /-- `extract_info(url, download=True)`: raises or succeeds. -/
  dlResult : Except String Unit
  /-- The raw percentages the extractor reports through the progress hook. -/
  hookPercents : List Int
  /-- Whether the extractor fires its final `finished` hook event. -/
  hookFinished : Bool
  /-- The stem of `ydl.prepare_filename(info)` inside the output folder. -/
  preparedStem : String
  /-- The mp3 artifact the extractor wrote (size in bytes), if any. -/
  artifact : Option Nat
  /-- `info.get('thumbnails', [])`: `none` = empty list, `some none` =
  last entry has no url, `some (some u)` = last entry has url `u`. -/
  thumbs : Option (Option String)
  /-- Whether the thumbnail HTTP fetch and write succeed. -/
  thumbFetchOk : Bool
  /-- Size in bytes of a successfully fetched thumbnail. -/
  thumbSize : Nat

/-- One `await ws.send_json(m)`: consults the send oracle; on success the
message is appended to the delivered trace, on failure the call raises
(signalled by the returned Bool). -/
def trySend (env : Env) (st : St) (m : Msg) : St × Bool :=
  let ok := env.sendOk st.sendCount
  ({ st with sendCount := st.sendCount + 1,
             sent := if ok then st.sent ++ [m] else st.sent }, ok)

/-! ## download_audio (download_yt.py) -/

/-- An event passed to the yt-dlp progress hook: `d['status']` is
`'downloading'` with a parsed percentage, or `'finished'`. -/
inductive HookEvent where
  | downloading (percent : Int)
  | finished
deriving Repr, DecidableEq

/-- Function `progress_hook` from download_yt.py.  The hook runs on the
extractor's worker thread and hands the send to the event loop via
`run_coroutine_threadsafe`, whose future is never awaited: a delivery
failure is silently dropped and never raises into the extraction, hence
the returned Bool of `trySend` is discarded. -/
def progress_hook (env : Env) (st : St) (d : HookEvent) : St :=
  match d with
  | HookEvent.downloading percent =>
      (trySend env st (Msg.progressMsg percent "Загрузка...")).1
  | HookEvent.finished =>
      (trySend env st (Msg.progressMsg 95 "Конвертация в mp3...")).1

/-- The hook events fired during `extract_info(url, download=True)`: the
reported percentages in order, then the `finished` event when the
extractor reaches it. -/
def fireHooks (env : Env) (st : St) : St :=
  let st1 := env.hookPercents.foldl
    (fun s percent => progress_hook env s (HookEvent.downloading percent)) st
  if env.hookFinished then progress_hook env st1 HookEvent.finished else st1

/-- The message text substituted for `str(e)` when an awaited
`ws.send_json` raises inside `download_audio`'s try block. -/
def sendFailText : String := "соединение закрыто"

/-- The оversize status line of download_yt.py (float formatting of the
actual size not modelled). -/
def oversizeText : String := "Файл превышает лимит и был удален."

/-- Result of `download_audio`: `Except.error ()` when an exception
escapes to the caller, otherwise the `(mp3_path, thumb_path)` pair. -/
abbrev DLRes := Except Unit (Option String × Option String)

/-- The `except Exception` handler at the end of `download_audio`: sends
`{"progress": 0, "status": f"Ошибка: {e}"}` and returns `(None, None)`;
if that send itself raises, the new exception escapes to the caller. -/
def dlFail (env : Env) (st : St) (e : String) : St × DLRes :=
  let r := trySend env st (Msg.progressMsg 0 ("Ошибка: " ++ e))
  if r.2 then (r.1, Except.ok (none, none)) else (r.1, Except.error ())

/-- The mp3 path `os.path.splitext(ydl.prepare_filename(info))[0] + '.mp3'`. -/
def mp3PathOf (out_folder : String) (env : Env) : String :=
  out_folder ++ "/" ++ env.preparedStem ++ ".mp3"

/-- The thumbnail extension chosen from the thumbnail url
(webp / png / default jpg). -/
def thumbExtOf (thumb_url : String) : String :=
  if strContains (strLower thumb_url) "webp" then ".webp"
  else if strContains (strLower thumb_url) "png" then ".png"
  else ".jpg"

/-- Function `download_audio` from download_yt.py.  Every awaited
`ws.send_json` is inside the outer try: a failing send jumps to `dlFail`;
hook sends (threadsafe, fire-and-forget) never raise.  The size ceiling
is re-checked post-hoc exactly when `max_filesize_mb` is truthy. -/
def download_audio (env : Env) (st : St) (out_folder : String)
    (max_filesize_mb : Int) : St × DLRes :=
  let r1 := trySend env st (Msg.progressMsg 5 "Получение информации о видео...")
  if !r1.2 then dlFail env r1.1 sendFailText else
  match env.infoResult with
  | Except.error e => dlFail env r1.1 e
  | Except.ok rawTitle =>
    let title := safe_filename rawTitle
    let r2 := trySend env r1.1 (Msg.progressMsg 10 ("Начинаем скачивание: " ++ title))
    if !r2.2 then dlFail env r2.1 sendFailText else
    match env.dlResult with
    | Except.error e => dlFail env r2.1 e
    | Except.ok _ =>
      let st3 := fireHooks env r2.1
      let mp3_path := mp3PathOf out_folder env
      let st4 := match env.artifact with
        | some sz => { st3 with fs := FS.setFile st3.fs mp3_path sz }
        | none => st3
      if !(FS.pathExists st4.fs mp3_path) then
        let r5 := trySend env st4 (Msg.progressMsg 0 "Ошибка: mp3 файл не был создан")
        if !r5.2 then dlFail env r5.1 sendFailText else (r5.1, Except.ok (none, none))
      else if max_filesize_mb != 0 &&
          (FS.fileSize st4.fs mp3_path : Int) > max_filesize_mb * 1048576 then
        let st5 := { st4 with fs := FS.removeFile st4.fs mp3_path }
        let r6 := trySend env st5 (Msg.progressMsg 0 oversizeText)
        if !r6.2 then dlFail env r6.1 sendFailText else (r6.1, Except.ok (none, none))
      else
        let r7 := trySend env st4 (Msg.progressMsg 90 "Скачивание миниатюры...")
        if !r7.2 then dlFail env r7.1 sendFailText else
        match env.thumbs with
        | none =>
          let r8 := trySend env r7.1 (Msg.progressMsg 95 "Миниатюра недоступна")
          if !r8.2 then dlFail env r8.1 sendFailText else
          let r9 := trySend env r8.1 (Msg.progressMsg 100 "Готово!")
          if !r9.2 then dlFail env r9.1 sendFailText
          else (r9.1, Except.ok (some mp3_path, none))
        | some none =>
          let r9 := trySend env r7.1 (Msg.progressMsg 100 "Готово!")
          if !r9.2 then dlFail env r9.1 sendFailText
          else (r9.1, Except.ok (some mp3_path, none))
        | some (some thumb_url) =>
          let thumb_path := out_folder ++ "/" ++ title ++ "_thumbnail" ++ thumbExtOf thumb_url
          if env.thumbFetchOk then
            let st8 := { r7.1 with fs := FS.setFile r7.1.fs thumb_path env.thumbSize }
            let r8 := trySend env st8 (Msg.progressMsg 95 "Миниатюра сохранена")
            if !r8.2 then dlFail env r8.1 sendFailText else
            let r9 := trySend env r8.1 (Msg.progressMsg 100 "Готово!")
            if !r9.2 then dlFail env r9.1 sendFailText
            else (r9.1, Except.ok (some mp3_path, some thumb_path))
          else
            let r8 := trySend env r7.1 (Msg.progressMsg 95 "Не удалось скачать обложку")
            if !r8.2 then dlFail env r8.1 sendFailText else
            let r9 := trySend env r8.1 (Msg.progressMsg 100 "Готово!")
            if !r9.2 then dlFail env r9.1 sendFailText
            else (r9.1, Except.ok (some mp3_path, none))

/-! ## WebSocket endpoint (app.py `websocket_download`) -/

/-- The terminal failure text of the WebSocket handler (the interpolated
`{maxsize}` number is not modelled). -/
def wsFailText : String := "Не удалось скачать файл или он превышает лимит МБ"

/-- The exception path of `websocket_download`: when an exception other
than a disconnect escapes, the generic handler attempts one more send,
whose own failure is swallowed; the `finally` block only unregisters and
closes.  On a disconnect no extra send is attempted; the job store is
untouched either way, which is the only observable both paths share. -/
def wsCleanup (env : Env) (st : St) : St :=
  (trySend env st (Msg.errorMsg "Произошла ошибка")).1

/-- Endpoint `websocket_download` from app.py (the `ws.accept()` call is
modelled as succeeding; the connection registry is not modelled).  Takes
the fresh uuid `task_id` as an argument, returns the final world and the
final job store. -/
def websocket_download (env : Env) (st : St) (downloads : Store)
    (task_id url : String) (maxsize : Int) : St × Store :=
  if strStrip url = "" then
    ((trySend env st (Msg.errorMsg "URL не может быть пустым")).1, downloads)
  else if maxsize ≤ 0 ∨ maxsize > MAX_FILE_SIZE_MB then
    ((trySend env st (Msg.errorMsg "Размер файла должен быть от 1 до 50 МБ")).1, downloads)
  else
    let platform := get_platform_from_url url
    if !(is_supported_platform url) then
      if COMING_SOON_PLATFORMS.any (fun p => strContains (strLower url) p) then
        ((trySend env st (Msg.comingSoon
            ("Поддержка " ++ platform ++ " скоро будет добавлена! 🚀") platform)).1,
         downloads)
      else
        ((trySend env st (Msg.errorMsg
            "Неподдерживаемая платформа. Поддерживается только YouTube.")).1,
         downloads)
    else
      let downloads1 := create_download_task downloads task_id url maxsize
      let r1 := trySend env st
        (Msg.startMsg ("Начинаем загрузку с " ++ platform ++ "...") 0 task_id)
      if !r1.2 then (wsCleanup env r1.1, downloads1) else
      match download_audio env r1.1 DOWNLOAD_FOLDER maxsize with
      | (st2, Except.error _) => (wsCleanup env st2, downloads1)
      | (st2, Except.ok (mp3Opt, thumbOpt)) =>
        match mp3Opt with
        | some mp3_path =>
          if FS.pathExists st2.fs mp3_path then
            let downloads2 := update_download downloads1 task_id (fun j =>
              { j with status := "completed", progress := 100,
                       mp3_path := some mp3_path, thumb_path := thumbOpt })
            let thumbnail_url := match thumbOpt with
              | some t =>
                  if FS.pathExists st2.fs t then some ("/api/file/" ++ basename t)
                  else none
              | none => none
            let r2 := trySend env st2 (Msg.successMsg "Загрузка завершена успешно! 🎵"
              ("/api/file/" ++ basename mp3_path) (some task_id)
              (FS.fileSize st2.fs mp3_path) thumbnail_url)
            ((if r2.2 then r2.1 else wsCleanup env r2.1), downloads2)
          else
            let downloads2 := update_download downloads1 task_id (fun j =>
              { j with status := "failed", error := some wsFailText })
            let r2 := trySend env st2 (Msg.failureMsg wsFailText task_id)
            ((if r2.2 then r2.1 else wsCleanup env r2.1), downloads2)
        | none =>
          let downloads2 := update_download downloads1 task_id (fun j =>
            { j with status := "failed", error := some wsFailText })
          let r2 := trySend env st2 (Msg.failureMsg wsFailText task_id)
          ((if r2.2 then r2.1 else wsCleanup env r2.1), downloads2)

/-! ## Plain request/response endpoint (app.py `api_download_url`) -/

/-- The HTTP-level result of the plain endpoint. -/
inductive ApiResp where
  /-- The success payload (file size kept in raw bytes). -/
  | ok (message : String) (download_url : String) (file_size_bytes : Nat)
      (thumbnail_url : Option String)
  /-- The coming-soon JSON body (a 200 response, not an exception). -/
  | comingSoonResp (error : String) (platform : String)
  /-- A raised `HTTPException`. -/
  | httpError (code : Nat) (detail : String)
deriving Repr, DecidableEq

/-- The detail text of the too-big/failed 400 (interpolated number not
modelled). -/
def apiFailText : String := "Файл слишком большой или произошла ошибка. Максимум МБ."

/-- Endpoint `api_download_url` from app.py.  `data.get("url")` may be
absent (`none`) or falsy (`""`).  No size validation is performed and no
job is ever created here; `download_audio` runs against a mock WebSocket
whose sends always succeed.  The `HTTPException(400)` raised inside the
try block is caught by `except Exception` and re-raised as a 500 whose
detail is `str(e)` = "400: <detail>". -/
def api_download_url (env : Env) (st : St) (downloads : Store)
    (url : Option String) (maxsize : Int) : St × Store × ApiResp :=
  match url with
  | none => (st, downloads, ApiResp.httpError 400 "URL обязателен")
  | some u =>
    if u = "" then (st, downloads, ApiResp.httpError 400 "URL обязателен")
    else if !(is_supported_platform u) then
      if COMING_SOON_PLATFORMS.any (fun p => strContains (strLower u) p) then
        (st, downloads, ApiResp.comingSoonResp
          ("Поддержка " ++ get_platform_from_url u ++ " скоро будет добавлена! 🚀")
          (get_platform_from_url u))
      else (st, downloads, ApiResp.httpError 400 "Неподдерживаемая платформа")
    else
      match download_audio { env with sendOk := fun _ => true } st DOWNLOAD_FOLDER maxsize with
      | (st2, Except.error _) => (st2, downloads, ApiResp.httpError 500 "ошибка")
      | (st2, Except.ok (mp3Opt, thumbOpt)) =>
        match mp3Opt with
        | some mp3_path =>
          if FS.pathExists st2.fs mp3_path then
            (st2, downloads, ApiResp.ok "Файл готов"
              ("/api/file/" ++ basename mp3_path) (FS.fileSize st2.fs mp3_path)
              (match thumbOpt with
               | some t =>
                   if FS.pathExists st2.fs t then some ("/api/file/" ++ basename t)
                   else none
               | none => none))
          else (st2, downloads, ApiResp.httpError 500 ("400: " ++ apiFailText))
        | none => (st2, downloads, ApiResp.httpError 500 ("400: " ++ apiFailText))

/-! ## File serving endpoint (app.py `serve_file`) -/

/-- The result of the artifact retrieval endpoint. -/
inductive ServeResult where
  /-- A `FileResponse` of the file at `path` with the given media type. -/
  | file (path : String) (filename : String) (mediaType : String)
  /-- A raised `HTTPException`. -/
  | httpError (code : Nat) (detail : String)
deriving Repr, DecidableEq

/-- Whether a filename contains `".."`, `"/"` or `"\"`. -/
def containsBadSeq (file_name : String) : Bool :=
  strContains file_name ".." || strContains file_name "/" ||
    strContains file_name "\\"

/-- The extension-based content type table of `serve_file`
(`os.path.splitext`'s leading-dot special case is not modelled; the
extension is everything after the last dot, lower-cased). -/
def mediaTypeOf (file_name : String) : String :=
  let extChars := file_name.toList.foldl
    (fun acc c => if c = '.' then some [] else acc.map (fun e => e ++ [c])) none
  let ext := match extChars with
    | some e => "." ++ strLower (String.mk e)
    | none => ""
  if ext = ".mp3" then "audio/mpeg"
  else if ext = ".jpg" ∨ ext = ".jpeg" then "image/jpeg"
  else if ext = ".png" then "image/png"
  else if ext = ".webp" then "image/webp"
  else "application/octet-stream"

/-- Endpoint `serve_file` from app.py: the path-traversal check runs
before any path is built or the filesystem is touched. -/
def serve_file (fs : FS) (file_name : String) : ServeResult :=
  if containsBadSeq file_name then
    ServeResult.httpError 400 "Недопустимое имя файла"
  else
    let file_path := DOWNLOAD_FOLDER ++ "/" ++ file_name
    if FS.pathExists fs file_path then
      ServeResult.file file_path file_name (mediaTypeOf file_name)
    else ServeResult.httpError 404 "Файл не найден"

/-! ## Concrete runs used as inputs of counterexamples and witnesses -/

/-- A fully successful run: every send is delivered, both extractor
calls succeed, the extractor reports 50% once and fires `finished`, a
5 MiB mp3 artifact is written and the jpg thumbnail fetch succeeds. -/
def envAllOk : Env :=
  { sendOk := fun _ => true, infoResult := Except.ok "Title",
    dlResult := Except.ok (), hookPercents := [50], hookFinished := true,
    preparedStem := "Title", artifact := some 5242880,
    thumbs := some (some "http://i/img.jpg"), thumbFetchOk := true,
    thumbSize := 100 }

/-- The same run, but the client is gone: every `send_json` raises. -/
def envNoSend : Env := { envAllOk with sendOk := fun _ => false }

/-- The same fully successful run except the extractor writes a 20 MiB
artifact (over a 15 MB limit). -/
def envBigFile : Env := { envAllOk with artifact := some 20971520 }

/-- The same run except the thumbnail HTTP fetch fails. -/
def envThumbFail : Env := { envAllOk with thumbFetchOk := false }

/-! ## Supporting lemmas -/

theorem reSubChars_eq_map (l : List Char) : reSubChars l = l.map reSubChar := by
  induction l with
  | nil => rfl
  | cons c cs ih => simp [reSubChars, ih]

theorem reSubChar_idem (c : Char) : reSubChar (reSubChar c) = reSubChar c := by
  unfold reSubChar
  by_cases h : forbiddenChars.contains c = true
  · simp only [if_pos h]
    decide
  · simp only [if_neg h]

theorem reSubChar_not_forbidden (c : Char) :
    forbiddenChars.contains (reSubChar c) = false := by
  unfold reSubChar
  by_cases h : forbiddenChars.contains c = true
  · simp only [if_pos h]
    decide
  · simp only [if_neg h]
    exact Bool.eq_false_iff.mpr h

theorem trySend_allOk (env : Env) (hA : ∀ n, env.sendOk n = true) (st : St) (m : Msg) :
    trySend env st m
      = ({ st with sendCount := st.sendCount + 1, sent := st.sent ++ [m] }, true) := by
  simp [trySend, hA]

theorem trySend_fs (env : Env) (st : St) (m : Msg) : (trySend env st m).1.fs = st.fs := rfl

theorem progress_hook_fs (env : Env) (st : St) (d : HookEvent) :
    (progress_hook env st d).fs = st.fs := by
  cases d <;> rfl

theorem foldl_hooks_fs (env : Env) (l : List Int) (st : St) :
    (l.foldl (fun s percent => progress_hook env s (HookEvent.downloading percent)) st).fs
      = st.fs := by
  induction l generalizing st with
  | nil => rfl
  | cons p t ih => simp [List.foldl_cons, ih, progress_hook_fs]

theorem fireHooks_fs (env : Env) (st : St) : (fireHooks env st).fs = st.fs := by
  unfold fireHooks
  by_cases h : env.hookFinished = true
  · simp [h, progress_hook_fs, foldl_hooks_fs]
  · simp [h, foldl_hooks_fs]

theorem foldl_hooks_sent (env : Env) (hA : ∀ n, env.sendOk n = true) (l : List Int) (st : St) :
    (l.foldl (fun s percent => progress_hook env s (HookEvent.downloading percent)) st).sent
      = st.sent ++ l.map (fun p => Msg.progressMsg p "Загрузка...") := by
  induction l generalizing st with
  | nil => simp
  | cons p t ih =>
    rw [List.foldl_cons, ih]
    simp [progress_hook, trySend_allOk env hA]

theorem progress_hook_sent_finished (env : Env) (hA : ∀ n, env.sendOk n = true) (st : St) :
    (progress_hook env st HookEvent.finished).sent
      = st.sent ++ [Msg.progressMsg 95 "Конвертация в mp3..."] := by
  simp [progress_hook, trySend_allOk env hA]

theorem fireHooks_sent (env : Env) (hA : ∀ n, env.sendOk n = true) (st : St) :
    (fireHooks env st).sent
      = st.sent ++ env.hookPercents.map (fun p => Msg.progressMsg p "Загрузка...")
          ++ (if env.hookFinished then [Msg.progressMsg 95 "Конвертация в mp3..."] else []) := by
  unfold fireHooks
  by_cases h : env.hookFinished = true
  · rw [if_pos h, if_pos h, progress_hook_sent_finished env hA, foldl_hooks_sent env hA,
      List.append_assoc]
  · rw [if_neg h, if_neg h, foldl_hooks_sent env hA]
    simp

theorem FS.pathExists_setFile (fs : FS) (p : String) (sz : Nat) :
    FS.pathExists (FS.setFile fs p sz) p = true := by
  simp [FS.pathExists, FS.setFile, List.find?]

theorem FS.fileSize_setFile (fs : FS) (p : String) (sz : Nat) :
    FS.fileSize (FS.setFile fs p sz) p = sz := by
  simp [FS.fileSize, FS.setFile, List.find?]

theorem FS.pathExists_setFile_mono (fs : FS) (p q : String) (szq : Nat)
    (h : FS.pathExists fs p = true) :
    FS.pathExists (FS.setFile fs q szq) p = true := by
  by_cases hpq : q = p
  · subst hpq
    exact FS.pathExists_setFile fs q szq
  · simp only [FS.pathExists] at h
    obtain ⟨x, hx, hxp⟩ := List.find?_isSome.mp h
    have hxe : x.1 = p := eq_of_beq hxp
    simp only [FS.pathExists, FS.setFile]
    refine List.find?_isSome.mpr ⟨x, ?_, hxp⟩
    refine List.mem_cons_of_mem _ (List.mem_filter.mpr ⟨hx, ?_⟩)
    rw [bne_iff_ne, hxe]
    exact fun he => hpq he.symm

theorem FS.pathExists_removeFile (fs : FS) (p : String) :
    FS.pathExists (FS.removeFile fs p) p = false := by
  have h : (FS.removeFile fs p).find? (fun e => e.1 == p) = none := by
    rw [List.find?_eq_none]
    intro x hx
    have hb := (List.mem_filter.mp hx).2
    simp only [bne, Bool.not_eq_eq_eq_not, Bool.not_true] at hb
    simp [hb]
  simp [FS.pathExists, h]

theorem get_download_create (downloads : Store) (tid u : String) (m : Int) :
    get_download (create_download_task downloads tid u m) tid = some (initJob u m) := by
  simp [get_download, create_download_task, List.find?]

theorem get_download_update_create (downloads : Store) (tid u : String) (m : Int)
    (f : Job → Job) :
    get_download (update_download (create_download_task downloads tid u m) tid f) tid
      = some (f (initJob u m)) := by
  simp [get_download, update_download, create_download_task, List.find?]

theorem update_download_length (downloads : Store) (tid : String) (f : Job → Job) :
    (update_download downloads tid f).length = downloads.length := by
  unfold update_download
  split
  · simp
  · rfl

theorem download_audio_allOk (env : Env) (st : St) (out : String) (maxMB : Int)
    (hA : ∀ n, env.sendOk n = true) :
    ∃ st2 res, download_audio env st out maxMB = (st2, Except.ok res) := by
  unfold download_audio dlFail
  simp [trySend_allOk env hA]
  repeat' split
  all_goals first
    | exact ⟨_, _, rfl⟩
    | exact ⟨_, _, _, rfl⟩

theorem download_audio_oversize (env : Env) (st : St) (out : String) (maxMB : Int)
    (t : String) (sz : Nat)
    (hA : ∀ n, env.sendOk n = true)
    (hI : env.infoResult = Except.ok t) (hD : env.dlResult = Except.ok ())
    (hArt : env.artifact = some sz)
    (hM : 1 ≤ maxMB) (hSz : (sz : Int) > maxMB * 1048576) :
    ∃ st2, download_audio env st out maxMB = (st2, Except.ok (none, none)) ∧
      FS.pathExists st2.fs (mp3PathOf out env) = false := by
  have hM0 : maxMB ≠ 0 := by omega
  unfold download_audio dlFail
  simp [trySend_allOk env hA, hI, hD, hArt, fireHooks_fs, FS.pathExists_setFile,
    FS.fileSize_setFile, hM0, hSz, FS.pathExists_removeFile]

theorem download_audio_thumbFail (env : Env) (st : St) (out : String) (maxMB : Int)
    (t : String) (sz : Nat) (u : String)
    (hA : ∀ n, env.sendOk n = true)
    (hI : env.infoResult = Except.ok t) (hD : env.dlResult = Except.ok ())
    (hArt : env.artifact = some sz)
    (hSz : (sz : Int) ≤ maxMB * 1048576)
    (hTh : env.thumbs = some (some u)) (hTF : env.thumbFetchOk = false) :
    ∃ st2, download_audio env st out maxMB
        = (st2, Except.ok (some (mp3PathOf out env), none)) ∧
      FS.pathExists st2.fs (mp3PathOf out env) = true := by
  have hS2 : ¬ ((sz : Int) > maxMB * 1048576) := not_lt.mpr hSz
  unfold download_audio dlFail
  simp [trySend_allOk env hA, hI, hD, hArt, hTh, hTF, fireHooks_fs,
    FS.pathExists_setFile, FS.fileSize_setFile, hS2]

theorem download_audio_thumbEmpty (env : Env) (st : St) (out : String) (maxMB : Int)
    (t : String) (sz : Nat)
    (hA : ∀ n, env.sendOk n = true)
    (hI : env.infoResult = Except.ok t) (hD : env.dlResult = Except.ok ())
    (hArt : env.artifact = some sz)
    (hSz : (sz : Int) ≤ maxMB * 1048576)
    (hTh : env.thumbs = none) :
    ∃ st2, download_audio env st out maxMB
        = (st2, Except.ok (some (mp3PathOf out env), none)) ∧
      FS.pathExists st2.fs (mp3PathOf out env) = true := by
  have hS2 : ¬ ((sz : Int) > maxMB * 1048576) := not_lt.mpr hSz
  unfold download_audio dlFail
  simp [trySend_allOk env hA, hI, hD, hArt, hTh, fireHooks_fs,
    FS.pathExists_setFile, FS.fileSize_setFile, hS2]

theorem download_audio_thumbNoUrl (env : Env) (st : St) (out : String) (maxMB : Int)
    (t : String) (sz : Nat)
    (hA : ∀ n, env.sendOk n = true)
    (hI : env.infoResult = Except.ok t) (hD : env.dlResult = Except.ok ())
    (hArt : env.artifact = some sz)
    (hSz : (sz : Int) ≤ maxMB * 1048576)
    (hTh : env.thumbs = some none) :
    ∃ st2, download_audio env st out maxMB
        = (st2, Except.ok (some (mp3PathOf out env), none)) ∧
      FS.pathExists st2.fs (mp3PathOf out env) = true := by
  have hS2 : ¬ ((sz : Int) > maxMB * 1048576) := not_lt.mpr hSz
  unfold download_audio dlFail
  simp [trySend_allOk env hA, hI, hD, hArt, hTh, fireHooks_fs,
    FS.pathExists_setFile, FS.fileSize_setFile, hS2]

theorem download_audio_thumbOk (env : Env) (st : St) (out : String) (maxMB : Int)
    (t : String) (sz : Nat) (u : String)
    (hA : ∀ n, env.sendOk n = true)
    (hI : env.infoResult = Except.ok t) (hD : env.dlResult = Except.ok ())
    (hArt : env.artifact = some sz)
    (hSz : (sz : Int) ≤ maxMB * 1048576)
    (hTh : env.thumbs = some (some u)) (hTF : env.thumbFetchOk = true) :
    ∃ st2 tp, download_audio env st out maxMB
        = (st2, Except.ok (some (mp3PathOf out env), some tp)) ∧
      FS.pathExists st2.fs (mp3PathOf out env) = true ∧
      st2.sent = st.sent
        ++ [Msg.progressMsg 5 "Получение информации о видео...",
            Msg.progressMsg 10 ("Начинаем скачивание: " ++ safe_filename t)]
        ++ env.hookPercents.map (fun q => Msg.progressMsg q "Загрузка...")
        ++ (if env.hookFinished then [Msg.progressMsg 95 "Конвертация в mp3..."] else [])
        ++ [Msg.progressMsg 90 "Скачивание миниатюры...",
            Msg.progressMsg 95 "Миниатюра сохранена",
            Msg.progressMsg 100 "Готово!"] := by
  have hS2 : ¬ ((sz : Int) > maxMB * 1048576) := not_lt.mpr hSz
  unfold download_audio dlFail
  simp [trySend_allOk env hA, hI, hD, hArt, hTh, hTF, fireHooks_fs, fireHooks_sent env hA,
    FS.pathExists_setFile, FS.fileSize_setFile, hS2, List.append_assoc]
  exact FS.pathExists_setFile_mono _ _ _ _ (FS.pathExists_setFile _ _ _)

theorem reSubChars_idem (l : List Char) : reSubChars (reSubChars l) = reSubChars l := by
  induction l with
  | nil => rfl
  | cons c cs ih => simp [reSubChars, ih, reSubChar_idem]

theorem reSubChars_all_safe (l : List Char) :
    (reSubChars l).all (fun c => !(forbiddenChars.contains c)) = true := by
  induction l with
  | nil => rfl
  | cons c cs ih =>
    show (reSubChar c :: reSubChars cs).all (fun c => !(forbiddenChars.contains c)) = true
    rw [List.all_cons, ih, reSubChar_not_forbidden]
    rfl

theorem toList_safe_filename (s : String) :
    (safe_filename s).toList = reSubChars s.toList := rfl

/-! ## Claim theorems -/

/-- C7: `safe_filename` replaces every occurrence of each character of
the set < > : " / \ | ? * with an underscore and leaves every other
character unchanged (stated character-wise over the decomposition of the
result), and the title "My/Song:Title*" maps to "My_Song_Title_". -/
theorem C7_safe_filename_charwise (s : String) :
    safe_filename "My/Song:Title*" = "My_Song_Title_" ∧
    (safe_filename s).toList
      = s.toList.map (fun c =>
          if c ∈ ['<', '>', ':', '"', '/', '\\', '|', '?', '*'] then '_' else c) := by
  constructor
  · decide
  · rw [toList_safe_filename, reSubChars_eq_map]
    have hfun : ∀ c : Char, reSubChar c
        = if c ∈ ['<', '>', ':', '"', '/', '\\', '|', '?', '*'] then '_' else c := by
      intro c
      simp [reSubChar, forbiddenChars, List.contains]
    simp [hfun]

/-- C10: `safe_filename` is idempotent and its output never contains a
character of the forbidden set < > : " / \ | ? *. -/
theorem C10_safe_filename_idem (s : String) :
    safe_filename (safe_filename s) = safe_filename s ∧
    (safe_filename s).toList.all (fun c => !(forbiddenChars.contains c)) = true := by
  constructor
  · show String.mk (reSubChars (String.mk (reSubChars s.toList)).toList) = _
    rw [show (String.mk (reSubChars s.toList)).toList = reSubChars s.toList from rfl,
      reSubChars_idem]
    rfl
  · rw [toList_safe_filename]
    exact reSubChars_all_safe s.toList

/-- C8: a filename containing "..", "/" or "\" is rejected by
`serve_file` with the 400 validation error; the result does not depend
on the filesystem at all, and no file response is ever produced for it. -/
theorem C8_traversal_rejected (file_name : String)
    (h : strContains file_name ".." = true ∨ strContains file_name "/" = true ∨
      strContains file_name "\\" = true) :
    (∀ fs : FS, serve_file fs file_name
        = ServeResult.httpError 400 "Недопустимое имя файла") ∧
    (∀ fs fs' : FS, serve_file fs file_name = serve_file fs' file_name) ∧
    (∀ (fs : FS) (path fn mt : String),
        serve_file fs file_name ≠ ServeResult.file path fn mt) := by
  have hb : containsBadSeq file_name = true := by
    rcases h with h | h | h <;> simp [containsBadSeq, h]
  refine ⟨fun fs => ?_, fun fs fs' => ?_, fun fs path fn mt => ?_⟩ <;>
    simp [serve_file, hb]

/-- Witness for C8 at the path-traversal filename from the spec. -/
theorem C8_traversal_rejected_witness :
    serve_file [("download/a.mp3", 3)] "../../etc/passwd"
      = ServeResult.httpError 400 "Недопустимое имя файла" :=
  (C8_traversal_rejected "../../etc/passwd" (Or.inl (by decide))).1
    [("download/a.mp3", 3)]

/-- C1 counterexample: with a valid, supported request whose client has
disconnected (every `send_json` raises), the WebSocket handler creates
the job, the first send after creation raises, the exception handlers
run, and the call returns with the job still in status "created" — not
"completed" or "failed" — and with no terminal message produced. -/
theorem C1_counterexample :
    (get_download (websocket_download envNoSend St0 [] "t1" "https://youtu.be/abc123" 15).2
        "t1").map Job.status = some "created" ∧
    (websocket_download envNoSend St0 [] "t1" "https://youtu.be/abc123" 15).1.sent = [] := by
  decide

/-- C2 counterexample: an accepted, validated request to the plain
request/response endpoint runs the whole download successfully yet
inserts zero Job records into the store — not exactly one. -/
theorem C2_counterexample :
    (api_download_url envAllOk St0 [] (some "https://youtu.be/abc123") 15).2.1 = [] ∧
    (api_download_url envAllOk St0 [] (some "https://youtu.be/abc123") 15).2.2
      = ApiResp.ok "Файл готов" "/api/file/Title.mp3" 5242880
          (some "/api/file/Title_thumbnail.jpg") := by
  decide

/-- C3 counterexample: size_limit 51 lies outside [1, 50], yet the plain
request/response endpoint does not reject it — the extraction runs and
the request succeeds. -/
theorem C3_counterexample :
    ((51 : Int) > 50) ∧
    (api_download_url envAllOk St0 [] (some "https://youtu.be/abc123") 51).2.2
      = ApiResp.ok "Файл готов" "/api/file/Title.mp3" 5242880
          (some "/api/file/Title_thumbnail.jpg") := by
  decide

/-- C4 counterexample: in a fully successful run (final status
"completed", so not failed), the delivered progress sequence is
0, 5, 10, 50, 95, 90, 95, 100: the thumbnail-stage message carries 90
after the transcode-stage message carried 95, so the sequence is not
non-decreasing. -/
theorem C4_counterexample :
    (get_download (websocket_download envAllOk St0 [] "t1" "https://youtu.be/abc123" 15).2
        "t1").map Job.status = some "completed" ∧
    progressValues
        (websocket_download envAllOk St0 [] "t1" "https://youtu.be/abc123" 15).1.sent
      = [0, 5, 10, 50, 95, 90, 95, 100] ∧
    nonDecreasing (progressValues
        (websocket_download envAllOk St0 [] "t1" "https://youtu.be/abc123" 15).1.sent)
      = false := by
  decide

/-- C3 (amended): on the streaming (WebSocket) endpoint every size_limit
outside [1, 50] is rejected with a validation error before any Job is
created — the Job Store is returned unchanged and the only message
delivered is an error message; the plain request/response endpoint,
however, performs no size_limit validation (see the counterexample). -/
theorem C3_amended (env : Env) (st : St) (downloads : Store) (task_id url : String)
    (maxsize : Int) (hA : ∀ n, env.sendOk n = true)
    (hM : maxsize ≤ 0 ∨ maxsize > 50) :
    (websocket_download env st downloads task_id url maxsize).2 = downloads ∧
    ∃ t, (websocket_download env st downloads task_id url maxsize).1.sent
      = st.sent ++ [Msg.errorMsg t] := by
  unfold websocket_download
  by_cases hu : strStrip url = ""
  · rw [if_pos hu]
    refine ⟨rfl, "URL не может быть пустым", ?_⟩
    simp [trySend_allOk env hA]
  · rw [if_neg hu, if_pos (by simpa [MAX_FILE_SIZE_MB] using hM)]
    refine ⟨rfl, "Размер файла должен быть от 1 до 50 МБ", ?_⟩
    simp [trySend_allOk env hA]

/-- Witness for C3 (amended) at size_limit 51 on a valid YouTube url. -/
theorem C3_amended_witness :
    (websocket_download envAllOk St0 [] "t1" "https://youtu.be/abc123" 51).2 = [] ∧
    ∃ t, (websocket_download envAllOk St0 [] "t1" "https://youtu.be/abc123" 51).1.sent
      = St0.sent ++ [Msg.errorMsg t] :=
  C3_amended envAllOk St0 [] "t1" "https://youtu.be/abc123" 51 (fun _ => rfl)
    (Or.inr (by decide))

/-- C2 (amended): the streaming endpoint inserts exactly one Job per
accepted, validated request on every execution path (including send
failures and extractor exceptions); the plain request/response endpoint
never inserts a Job — its store passes through unchanged. -/
theorem C2_amended (env : Env) (st : St) (downloads : Store) (task_id url : String)
    (maxsize : Int)
    (hu : ¬ strStrip url = "") (hm : ¬ (maxsize ≤ 0 ∨ maxsize > 50))
    (hs : is_supported_platform url = true) :
    ((websocket_download env st downloads task_id url maxsize).2.length
        = downloads.length + 1 ∧
      (get_download (websocket_download env st downloads task_id url maxsize).2
        task_id).isSome = true) ∧
    (∀ (env2 : Env) (st2 : St) (store2 : Store) (u : Option String) (m : Int),
      (api_download_url env2 st2 store2 u m).2.1 = store2) := by
  constructor
  · unfold websocket_download
    rw [if_neg hu, if_neg (by simpa [MAX_FILE_SIZE_MB] using hm), hs]
    simp only [Bool.not_true, Bool.false_eq_true, if_false]
    repeat' split
    all_goals
      refine ⟨?_, ?_⟩
      · simp [create_download_task, update_download_length]
      · simp [get_download_update_create, get_download_create]
  · intro env2 st2 store2 u m
    unfold api_download_url
    rcases u with _ | u2
    · rfl
    · repeat' split
      all_goals rfl

/-- C5: for a url that matches no supported-platform marker but contains
a coming-soon marker, the WebSocket endpoint replies with the coming-soon
message carrying `coming_soon` and the upper-cased label of the first
matching marker, and the Job Store is unchanged; for a url matching
neither set it replies with the generic unsupported-platform error, also
leaving the store unchanged. -/
theorem C5_platform_classification (env : Env) (st : St) (downloads : Store)
    (task_id url : String) (maxsize : Int)
    (hA : ∀ n, env.sendOk n = true)
    (hu : ¬ strStrip url = "") (hm : ¬ (maxsize ≤ 0 ∨ maxsize > 50))
    (hSup : is_supported_platform url = false) :
    (COMING_SOON_PLATFORMS.any (fun p => strContains (strLower url) p) = true →
      (websocket_download env st downloads task_id url maxsize).2 = downloads ∧
      ∃ m, m ∈ COMING_SOON_PLATFORMS ∧ strContains (strLower url) m = true ∧
        (websocket_download env st downloads task_id url maxsize).1.sent
          = st.sent ++ [Msg.comingSoon
              ("Поддержка " ++ strUpper m ++ " скоро будет добавлена! 🚀")
              (strUpper m)]) ∧
    (COMING_SOON_PLATFORMS.any (fun p => strContains (strLower url) p) = false →
      (websocket_download env st downloads task_id url maxsize).2 = downloads ∧
      (websocket_download env st downloads task_id url maxsize).1.sent
        = st.sent ++ [Msg.errorMsg
            "Неподдерживаемая платформа. Поддерживается только YouTube."]) := by
  have hs2 : (SUPPORTED_PLATFORMS.any fun platform =>
      strContains (strLower url) platform) = false := hSup
  constructor
  · intro hAny
    have h1 : (COMING_SOON_PLATFORMS.find?
        (fun p => strContains (strLower url) p)).isSome := by
      rw [List.find?_isSome]
      obtain ⟨x, hx, hpx⟩ := List.any_eq_true.mp hAny
      exact ⟨x, hx, hpx⟩
    obtain ⟨m, hm2⟩ := Option.isSome_iff_exists.mp h1
    have hplat : get_platform_from_url url = strUpper m := by
      unfold get_platform_from_url
      rw [hs2, hm2]
      simp
    unfold websocket_download
    rw [if_neg hu, if_neg (by simpa [MAX_FILE_SIZE_MB] using hm), hSup, hplat, hAny]
    refine ⟨rfl, m, List.mem_of_find?_eq_some hm2, List.find?_some hm2, ?_⟩
    simp [trySend_allOk env hA]
  · intro hAny
    unfold websocket_download
    rw [if_neg hu, if_neg (by simpa [MAX_FILE_SIZE_MB] using hm), hSup, hAny]
    refine ⟨rfl, ?_⟩
    simp [trySend_allOk env hA]

/-- Witness for C5 at the vk.com url of the spec scenario. -/
theorem C5_platform_classification_witness :
    (websocket_download envAllOk St0 [] "t1" "https://vk.com/video1" 15).2 = [] ∧
    ∃ m, m ∈ COMING_SOON_PLATFORMS ∧
      strContains (strLower "https://vk.com/video1") m = true ∧
      (websocket_download envAllOk St0 [] "t1" "https://vk.com/video1" 15).1.sent
        = St0.sent ++ [Msg.comingSoon
            ("Поддержка " ++ strUpper m ++ " скоро будет добавлена! 🚀") (strUpper m)] :=
  (C5_platform_classification envAllOk St0 [] "t1" "https://vk.com/video1" 15
    (fun _ => rfl) (by decide) (by decide) (by decide)).1 (by decide)

/-- C6: when the extractor writes an artifact strictly larger than
size_limit megabytes, the oversized file is removed from storage (it is
absent from the final filesystem), and the job ends in status "failed"
with `mp3_path` absent. -/
theorem C6_oversize_artifact (env : Env) (st : St) (downloads : Store)
    (task_id url : String) (maxsize : Int) (t : String) (sz : Nat)
    (hA : ∀ n, env.sendOk n = true)
    (hu : ¬ strStrip url = "") (hm1 : 1 ≤ maxsize) (hm2 : maxsize ≤ 50)
    (hs : is_supported_platform url = true)
    (hI : env.infoResult = Except.ok t) (hD : env.dlResult = Except.ok ())
    (hArt : env.artifact = some sz) (hSz : (sz : Int) > maxsize * 1048576) :
    FS.pathExists (websocket_download env st downloads task_id url maxsize).1.fs
        (mp3PathOf DOWNLOAD_FOLDER env) = false ∧
    (get_download (websocket_download env st downloads task_id url maxsize).2
        task_id).map Job.status = some "failed" ∧
    (get_download (websocket_download env st downloads task_id url maxsize).2
        task_id).map Job.mp3_path = some none := by
  unfold websocket_download
  rw [if_neg hu, if_neg (by simp only [MAX_FILE_SIZE_MB]; omega), hs]
  simp only [Bool.not_true, Bool.false_eq_true, if_false, trySend_allOk env hA]
  obtain ⟨st2, hda, hne⟩ := download_audio_oversize env
    (St.mk st.fs
      (st.sent ++ [Msg.startMsg
        ("Начинаем загрузку с " ++ get_platform_from_url url ++ "...") 0 task_id])
      (st.sendCount + 1))
    DOWNLOAD_FOLDER maxsize t sz hA hI hD hArt hm1 hSz
  rw [hda]
  refine ⟨?_, ?_, ?_⟩
  · simp [trySend_allOk env hA, hne]
  · simp [get_download_update_create]
  · simp [get_download_update_create, initJob]

/-- Witness for C6: a 20 MiB artifact against a 15 MB limit. -/
theorem C6_oversize_artifact_witness :
    FS.pathExists
        (websocket_download envBigFile St0 [] "t1" "https://youtu.be/abc123" 15).1.fs
        (mp3PathOf DOWNLOAD_FOLDER envBigFile) = false ∧
    (get_download (websocket_download envBigFile St0 [] "t1" "https://youtu.be/abc123" 15).2
        "t1").map Job.status = some "failed" ∧
    (get_download (websocket_download envBigFile St0 [] "t1" "https://youtu.be/abc123" 15).2
        "t1").map Job.mp3_path = some none :=
  C6_oversize_artifact envBigFile St0 [] "t1" "https://youtu.be/abc123" 15 "Title" 20971520
    (fun _ => rfl) (by decide) (by decide) (by decide) (by decide) rfl rfl rfl (by decide)

/-- C9: when audio extraction succeeds, any failure of the thumbnail
step — missing metadata (empty thumbnails list), a last thumbnail entry
without a url, or a failing fetch/timeout — does not fail the job: it
still ends in status "completed" with `thumb_path` absent and `mp3_path`
present, and the terminal message delivered is the success payload (with
no thumbnail url) — not an error. -/
theorem C9_thumbnail_nonfatal (env : Env) (st : St) (downloads : Store)
    (task_id url : String) (maxsize : Int) (t : String) (sz : Nat)
    (hA : ∀ n, env.sendOk n = true)
    (hu : ¬ strStrip url = "") (hm1 : 1 ≤ maxsize) (hm2 : maxsize ≤ 50)
    (hs : is_supported_platform url = true)
    (hI : env.infoResult = Except.ok t) (hD : env.dlResult = Except.ok ())
    (hArt : env.artifact = some sz) (hSz : (sz : Int) ≤ maxsize * 1048576)
    (hTh : env.thumbs = none ∨ env.thumbs = some none ∨
      ∃ u, env.thumbs = some (some u) ∧ env.thumbFetchOk = false) :
    (get_download (websocket_download env st downloads task_id url maxsize).2
        task_id).map Job.status = some "completed" ∧
    (get_download (websocket_download env st downloads task_id url maxsize).2
        task_id).map Job.thumb_path = some none ∧
    (get_download (websocket_download env st downloads task_id url maxsize).2
        task_id).map Job.mp3_path
      = some (some (mp3PathOf DOWNLOAD_FOLDER env)) ∧
    ∃ szb, (websocket_download env st downloads task_id url maxsize).1.sent.getLast?
      = some (Msg.successMsg "Загрузка завершена успешно! 🎵"
          ("/api/file/" ++ basename (mp3PathOf DOWNLOAD_FOLDER env)) (some task_id)
          szb none) := by
  unfold websocket_download
  rw [if_neg hu, if_neg (by simp only [MAX_FILE_SIZE_MB]; omega), hs]
  simp only [Bool.not_true, Bool.false_eq_true, if_false, trySend_allOk env hA]
  have H : ∃ st2, download_audio env
      (St.mk st.fs
        (st.sent ++ [Msg.startMsg
          ("Начинаем загрузку с " ++ get_platform_from_url url ++ "...") 0 task_id])
        (st.sendCount + 1))
      DOWNLOAD_FOLDER maxsize
        = (st2, Except.ok (some (mp3PathOf DOWNLOAD_FOLDER env), none)) ∧
      FS.pathExists st2.fs (mp3PathOf DOWNLOAD_FOLDER env) = true := by
    rcases hTh with h0 | h1 | ⟨u, h2, h3⟩
    · exact download_audio_thumbEmpty env _ DOWNLOAD_FOLDER maxsize t sz
        hA hI hD hArt hSz h0
    · exact download_audio_thumbNoUrl env _ DOWNLOAD_FOLDER maxsize t sz
        hA hI hD hArt hSz h1
    · exact download_audio_thumbFail env _ DOWNLOAD_FOLDER maxsize t sz u
        hA hI hD hArt hSz h2 h3
  obtain ⟨st2, hda, hpe⟩ := H
  rw [hda]
  simp only [hpe, if_true, trySend_allOk env hA]
  refine ⟨?_, ?_, ?_, FS.fileSize st2.fs (mp3PathOf DOWNLOAD_FOLDER env), ?_⟩
  · simp [get_download_update_create]
  · simp [get_download_update_create]
  · simp [get_download_update_create]
  · simp [List.getLast?_concat]

/-- C1 (amended): for every created Job, provided every `send_json`
after job creation succeeds (no client disconnect or send failure), by
the time the WebSocket call returns the Job's status is exactly one of
"completed" / "failed" and the last delivered message is a terminal
payload; when a send after creation fails, the Job can instead remain in
status "created" with no terminal message (see the counterexample). -/
theorem C1_amended (env : Env) (st : St) (downloads : Store) (task_id url : String)
    (maxsize : Int)
    (hA : ∀ n, env.sendOk n = true)
    (hu : ¬ strStrip url = "") (hm : ¬ (maxsize ≤ 0 ∨ maxsize > 50))
    (hs : is_supported_platform url = true) :
    (∃ j, get_download (websocket_download env st downloads task_id url maxsize).2 task_id
        = some j ∧ (j.status = "completed" ∨ j.status = "failed")) ∧
    (∃ msg, (websocket_download env st downloads task_id url maxsize).1.sent.getLast?
        = some msg ∧ isTerminal msg = true) := by
  unfold websocket_download
  rw [if_neg hu, if_neg (by simpa [MAX_FILE_SIZE_MB] using hm), hs]
  simp only [Bool.not_true, Bool.false_eq_true, if_false, trySend_allOk env hA]
  obtain ⟨st2, res, hda⟩ := download_audio_allOk env
    (St.mk st.fs
      (st.sent ++ [Msg.startMsg
        ("Начинаем загрузку с " ++ get_platform_from_url url ++ "...") 0 task_id])
      (st.sendCount + 1))
    DOWNLOAD_FOLDER maxsize hA
  rw [hda]
  rcases res with ⟨mp3Opt, thumbOpt⟩
  rcases mp3Opt with _ | p
  · simp [get_download_update_create, List.getLast?_concat, isTerminal]
  · by_cases hpe : FS.pathExists st2.fs p = true
    · simp [hpe, get_download_update_create, List.getLast?_concat, isTerminal]
    · simp [hpe, get_download_update_create, List.getLast?_concat, isTerminal]

/-- Witness for C1 (amended) on the fully successful run. -/
theorem C1_amended_witness :
    (∃ j, get_download (websocket_download envAllOk St0 [] "t1"
        "https://youtu.be/abc123" 15).2 "t1" = some j ∧
      (j.status = "completed" ∨ j.status = "failed")) ∧
    (∃ msg, (websocket_download envAllOk St0 [] "t1"
        "https://youtu.be/abc123" 15).1.sent.getLast? = some msg ∧
      isTerminal msg = true) :=
  C1_amended envAllOk St0 [] "t1" "https://youtu.be/abc123" 15
    (fun _ => rfl) (by decide) (by decide) (by decide)

/-- Witness for C9 on the run whose thumbnail fetch fails (one of the
three failure modes the theorem's disjunctive hypothesis covers). -/
theorem C9_thumbnail_nonfatal_witness :
    (get_download (websocket_download envThumbFail St0 [] "t1"
        "https://youtu.be/abc123" 15).2 "t1").map Job.status = some "completed" ∧
    (get_download (websocket_download envThumbFail St0 [] "t1"
        "https://youtu.be/abc123" 15).2 "t1").map Job.thumb_path = some none ∧
    (get_download (websocket_download envThumbFail St0 [] "t1"
        "https://youtu.be/abc123" 15).2 "t1").map Job.mp3_path
      = some (some (mp3PathOf DOWNLOAD_FOLDER envThumbFail)) ∧
    ∃ szb, (websocket_download envThumbFail St0 [] "t1"
        "https://youtu.be/abc123" 15).1.sent.getLast?
      = some (Msg.successMsg "Загрузка завершена успешно! 🎵"
          ("/api/file/" ++ basename (mp3PathOf DOWNLOAD_FOLDER envThumbFail)) (some "t1")
          szb none) :=
  C9_thumbnail_nonfatal envThumbFail St0 [] "t1" "https://youtu.be/abc123" 15 "Title"
    5242880 (fun _ => rfl) (by decide) (by decide) (by decide)
    (by decide) rfl rfl rfl (by decide)
    (Or.inr (Or.inr ⟨"http://i/img.jpg", rfl, rfl⟩))

theorem filterMap_progress_hookMsgs (l : List Int) :
    List.filterMap (progressOf ∘ fun q => Msg.progressMsg q "Загрузка...") l = l := by
  induction l with
  | nil => rfl
  | cons a tl ih => simp [List.filterMap_cons, progressOf, Function.comp, ih]

/-- C4 (amended): the delivered progress sequence of a fully successful
run is 0, 5, 10, then the raw extractor percentages forwarded unverified,
then 95 (transcode), 90 (thumbnail fetch), 95, 100: the fixed protocol
itself sends 90 after 95 at the thumbnail stage, so the sequence is not
non-decreasing even when the extractor percentages are. -/
theorem C4_amended (env : Env) (st : St) (downloads : Store) (task_id url : String)
    (maxsize : Int) (t : String) (sz : Nat) (u : String)
    (hA : ∀ n, env.sendOk n = true)
    (hu : ¬ strStrip url = "") (hm1 : 1 ≤ maxsize) (hm2 : maxsize ≤ 50)
    (hs : is_supported_platform url = true)
    (hI : env.infoResult = Except.ok t) (hD : env.dlResult = Except.ok ())
    (hArt : env.artifact = some sz) (hSz : (sz : Int) ≤ maxsize * 1048576)
    (hTh : env.thumbs = some (some u)) (hTF : env.thumbFetchOk = true)
    (hHF : env.hookFinished = true) :
    progressValues (websocket_download env st downloads task_id url maxsize).1.sent
      = progressValues st.sent ++ [0, 5, 10] ++ env.hookPercents
          ++ [95, 90, 95, 100] := by
  unfold websocket_download
  rw [if_neg hu, if_neg (by simp only [MAX_FILE_SIZE_MB]; omega), hs]
  simp only [Bool.not_true, Bool.false_eq_true, if_false, trySend_allOk env hA]
  obtain ⟨st2, tp, hda, hpe, hsent⟩ := download_audio_thumbOk env
    (St.mk st.fs
      (st.sent ++ [Msg.startMsg
        ("Начинаем загрузку с " ++ get_platform_from_url url ++ "...") 0 task_id])
      (st.sendCount + 1))
    DOWNLOAD_FOLDER maxsize t sz u hA hI hD hArt hSz hTh hTF
  rw [hda]
  simp [hpe, hsent, hHF, progressValues, progressOf, List.filterMap_append,
    List.filterMap_map, Function.comp, List.filterMap_cons, filterMap_progress_hookMsgs]

/-- Witness for C4 (amended) on the fully successful run with one raw
extractor percentage of 50. -/
theorem C4_amended_witness :
    progressValues (websocket_download envAllOk St0 [] "t1"
        "https://youtu.be/abc123" 15).1.sent
      = progressValues St0.sent ++ [0, 5, 10] ++ envAllOk.hookPercents
          ++ [95, 90, 95, 100] :=
  C4_amended envAllOk St0 [] "t1" "https://youtu.be/abc123" 15 "Title" 5242880
    "http://i/img.jpg" (fun _ => rfl) (by decide) (by decide) (by decide) (by decide)
    rfl rfl rfl (by decide) rfl rfl rfl

/-- Witness for C2 (amended) on the fully successful run. -/
theorem C2_amended_witness :
    (((websocket_download envAllOk St0 [] "t1" "https://youtu.be/abc123" 15).2.length
        = ([] : Store).length + 1) ∧
      (get_download (websocket_download envAllOk St0 [] "t1"
        "https://youtu.be/abc123" 15).2 "t1").isSome = true) ∧
    (∀ (env2 : Env) (st2 : St) (store2 : Store) (u : Option String) (m : Int),
      (api_download_url env2 st2 store2 u m).2.1 = store2) :=
  C2_amended envAllOk St0 [] "t1" "https://youtu.be/abc123" 15 (by decide) (by decide)
    (by decide)

end UrlToFile
